import Mathlib

/-!
Shallow embedding of the `oic-deploy` repository's deployment scripts
(`deploy_v4.py` as the primary archive variant, together with the parts of
`deploy_v2.py`, `project_deploy_v1.py` and `deploy_oic_integration.py` that
the verified properties touch), and proofs of the spec's claims about them.

HTTP transport is abstracted: each network call is fed from a scenario value
describing either a transport-level exception (connection error, timeout,
other request error) or a response consisting of a status code and an
optional parsed-JSON body (`none` models a body that is not parsable as
JSON).  Filesystem facts (file existence, directory contents) are likewise
scenario inputs.  The functions below otherwise follow the Python control
flow line by line.
-/

namespace OicDeploy

/-- The separator characters `.`, `_`, `-` used by the filename heuristic. -/
def seps : List Char := ['.', '_', '-']

/-- `str.replace(".iar", "")` from `derive_integration_id_from_filename`
(deploy_v4.py line 88): a single left-to-right pass removing each
non-overlapping occurrence of the substring `.iar`. -/
def replaceIar : List Char → List Char
  | '.' :: 'i' :: 'a' :: 'r' :: rest => replaceIar rest
  | c :: rest => c :: replaceIar rest
  | [] => []

/-- Whether the substring `.iar` occurs in the character list. -/
def containsIar : List Char → Bool
  | '.' :: 'i' :: 'a' :: 'r' :: _ => true
  | _ :: rest => containsIar rest
  | [] => false

/-- The optional `[vV]?` prefix of the version pattern: consume one leading
`v`/`V` if present (the following `\d+` forces this choice). -/
def stripOptV : List Char → List Char
  | [] => []
  | c :: rest => if c = 'v' ∨ c = 'V' then rest else c :: rest

/-- Scanner for the tail of `\d+(?:[._-]\d+){1,3}` anchored at `$`, having
already consumed at least one digit of the current numeric group; `k` counts
the separator-initiated repetitions consumed so far.  Because a separator is
never a digit and the pattern is anchored at the end, the backtracking
regex engine's parse here is forced, so this deterministic scan is
faithful. -/
def scanVersion : List Char → Nat → Bool
  | [], k => decide (1 ≤ k)
  | c :: rest, k =>
    if c.isDigit then scanVersion rest k
    else if c ∈ seps ∧ k < 3 then
      match rest with
      | d :: rest' => d.isDigit && scanVersion rest' (k + 1)
      | [] => false
    else false

/-- Recognizer for group 2 of the version pattern,
`[vV]?\d+(?:[._-]\d+){1,3}`, matched against the whole list (the pattern is
anchored at `$`, so group 2 is always an entire suffix of the filename). -/
def versionLike (l : List Char) : Bool :=
  match stripOptV l with
  | d :: rest => d.isDigit && scanVersion rest 0
  | [] => false

/-- `re.search(r'([._-])?([vV]?\d+(?:[._-]\d+){1,3})$', s)`: index of the
leftmost position at which the whole pattern matches (either with the
optional separator group present, or without it).  At any given position at
most one of the two alternatives can match, since group 2 must start with
`v`, `V` or a digit, never a separator. -/
def findVersionStart : List Char → Option Nat
  | [] => none
  | c :: rest =>
    if (decide (c ∈ seps) && versionLike rest) || versionLike (c :: rest) then some 0
    else (findVersionStart rest).map (· + 1)

/-- `version_str.lstrip('vV')` (deploy_v4.py line 103). -/
def lstripVV (l : List Char) : List Char :=
  l.dropWhile (fun c => decide (c = 'v' ∨ c = 'V'))

/-- `.replace('_', '.').replace('-', '.')` on the version string. -/
def sepToDot (l : List Char) : List Char :=
  (l.map fun c => if c = '_' then '.' else c).map fun c => if c = '-' then '.' else c

/-- `code_part.rstrip('._-')` (deploy_v4.py line 104). -/
def rstripSeps (l : List Char) : List Char :=
  (l.reverse.dropWhile fun c => decide (c ∈ seps)).reverse

/-- `derive_integration_id_from_filename` (deploy_v4.py lines 82-113) on the
character list of the filename: strip `.iar` occurrences; if the result
contains `|` return it unchanged; else search for the trailing version
pattern and return `code|version` (the code part is the prefix before the
match start, right-stripped of separators; the version is the matched
suffix without its leading separator, `lstrip`ped of `v`/`V` and with `_`
and `-` replaced by `.`); else return the stripped name. -/
def deriveIdL (b : List Char) : List Char :=
  let fwe := replaceIar b
  if '|' ∈ fwe then fwe
  else
    match findVersionStart fwe with
    | some i =>
      let tail := fwe.drop i
      let versionStr :=
        match tail with
        | c :: rest => if c ∈ seps then rest else tail
        | [] => tail
      let codePart := rstripSeps (fwe.take i)
      codePart ++ '|' :: sepToDot (lstripVV versionStr)
    | none => fwe

/-- String-level wrapper for `derive_integration_id_from_filename`. -/
def derive_integration_id_from_filename (s : String) : String :=
  ⟨deriveIdL s.data⟩

example : derive_integration_id_from_filename "ORDER_SYNC_1_2_3.iar" = "ORDER_SYNC|1.2.3" := by
  decide

example : derive_integration_id_from_filename "PriceFeed-v2-0-1.iar" = "PriceFeed|2.0.1" := by
  decide

example : derive_integration_id_from_filename "NoVersionHere.iar" = "NoVersionHere" := by
  decide

example : derive_integration_id_from_filename "AB.iarCD|1.iar" = "ABCD|1" := by decide

example : derive_integration_id_from_filename "1_2_3_4_5.iar" = "1|2.3.4.5" := by decide

/-! ## Abstract HTTP transport -/

/-- Transport-level exceptions raised by a `requests` call itself. -/
inductive NetErr
  | connError
  | timeout
  | otherError
deriving DecidableEq, Repr

/-- An HTTP response: status code plus the parse of its body as JSON
(`none` models a body that is not parsable as JSON). -/
structure HttpResp (β : Type) where
  code : Nat
  body : Option β
deriving DecidableEq, Repr

/-- Outcome of one network call: either a transport exception or a
response. -/
inductive NetResult (β : Type)
  | err (e : NetErr)
  | ok (r : HttpResp β)
deriving DecidableEq, Repr

/-- `response.raise_for_status()` raises `HTTPError` exactly for client and
server error codes (400-599). -/
def raisesFor (code : Nat) : Bool :=
  decide (400 ≤ code) && decide (code < 600)

/-- The fields of an import-response JSON body that the scripts read:
`status` and `id` (either may be absent). -/
structure ImportJson where
  statusField : Option String
  idField : Option String
deriving DecidableEq, Repr

/-- The field of an activation-response JSON body that the scripts read. -/
structure ActJson where
  statusField : Option String
deriving DecidableEq, Repr

/-- The field of a token-endpoint JSON body that the scripts read. -/
structure TokJson where
  accessToken : Option String
deriving DecidableEq, Repr

/-! ## Token acquisition (`get_bearer_token`, deploy_v4.py lines 8-80) -/

/-- `get_bearer_token`: returns the fetched token (or `none`) together with
the number of token-endpoint requests attempted.  Control flow from
deploy_v4.py: the POST is attempted once (transport exceptions yield
`None`); `raise_for_status` turns 4xx/5xx into `None`; a 204 yields `None`;
an unparsable body yields `None`; a missing or falsy (empty) `access_token`
yields `None`; otherwise the token is returned.  There is no retry. -/
def get_bearer_token (sc : NetResult TokJson) : Option String × Nat :=
  (match sc with
   | .err _ => none
   | .ok r =>
     if raisesFor r.code then none
     else if r.code = 204 then none
     else
       match r.body with
       | none => none
       | some j =>
         match j.accessToken with
         | none => none
         | some t => if t = "" then none else some t,
   1)

/-! ## URL construction (deploy_v4.py lines 125-137, 251-261) -/

/-- `str.endswith(post)`: suffix test, via the reversed character lists
(kernel-computable, unlike `String.endsWith`). -/
def strEndsWith (s post : String) : Bool :=
  post.data.reverse.isPrefixOf s.data.reverse

/-- `os.path.join(a, b)` for a relative `b`. -/
def pyJoin (a b : String) : String :=
  if strEndsWith a "/" then a ++ b else a ++ "/" ++ b

/-- `base_api_url` (deploy_v4.py lines 125-127). -/
def baseApiUrl (oicUrl : String) : String :=
  if strEndsWith oicUrl "/ic/api/integration/v1" then oicUrl
  else pyJoin oicUrl "ic/api/integration/v1"

/-- `target_import_put_url` (deploy_v4.py lines 131-133): used for the
POST import and reused verbatim for the PUT fallback. -/
def importPutUrl (oicUrl : String) (instanceName : Option String) : String :=
  let u := baseApiUrl oicUrl ++ "/integrations/archive"
  match instanceName with
  | some n => u ++ "?integrationInstance=" ++ n
  | none => u

/-- `activate_url` (deploy_v4.py lines 252-260). -/
def activateUrl (oicUrl : String) (id : String) (instanceName : Option String)
    (asyncMode : Bool) : String :=
  let u := baseApiUrl oicUrl ++ "/integrations/" ++ id
  let qp := (match instanceName with
             | some n => ["integrationInstance=" ++ n]
             | none => []) ++
            (if asyncMode then ["enableAsyncActivationMode=true"] else [])
  if qp = [] then u else u ++ "?" ++ String.intercalate "&" qp

/-- `os.path.basename` for POSIX paths: the part after the last `/`. -/
def pyBasename (p : String) : String :=
  ⟨(p.data.reverse.takeWhile fun c => decide (c ≠ '/')).reverse⟩

/-! ## Archive deployment (`deploy_oic_integration`, deploy_v4.py 116-342) -/

/-- The HTTP requests the deployment procedure issues, with enough payload
detail to state the claims: import POST and fallback PUT carry the target
URL, the multipart file name and the file path whose bytes are streamed;
the activation request carries its URL and the integration id it targets. -/
inductive Req
  | importPost (url fileName filePath : String)
  | importPut (url fileName filePath : String)
  | activate (url : String) (id : String)
deriving DecidableEq, Repr

/-- Scenario for deploying one archive: whether the file exists, and the
outcomes of the (up to three) network calls the procedure can make.  The
PUT response carries a JSON body in the model precisely so that we can
prove the code never reads it. -/
structure Scenario where
  fileExists : Bool
  post : NetResult ImportJson
  put : NetResult ImportJson
  activation : NetResult ActJson
deriving DecidableEq, Repr

/-- Interpretation of the activation response in deploy_v4.py (lines
277-309): HTTP 200 with JSON status `ACTIVATED`/`ACTIVATION_INPROGRESS`
is success; HTTP 200 with an unparsable body is success (tolerated); HTTP
200 with any other parsed body is failure; every non-200 outcome (raised
or not) and every transport exception is failure. -/
def interpretActivationV4 : NetResult ActJson → Bool
  | .err _ => false
  | .ok r =>
    if r.code = 200 then
      match r.body with
      | none => true
      | some j =>
        decide (j.statusField = some "ACTIVATED") ||
          decide (j.statusField = some "ACTIVATION_INPROGRESS")
    else false

/-- Interpretation of the activation response in deploy_v2.py (lines
195-239): `raise_for_status` fails 4xx/5xx; an unparsable body raises
`JSONDecodeError` and fails; only JSON status exactly `ACTIVATED` is
success. -/
def interpretActivationV2 : NetResult ActJson → Bool
  | .err _ => false
  | .ok r =>
    if raisesFor r.code then false
    else
      match r.body with
      | none => false
      | some j => decide (j.statusField = some "ACTIVATED")

/-- Step 2/2 of `deploy_oic_integration` (deploy_v4.py lines 246-309): the
line-247 guard (`deployment_successful` is true on every path reaching
here, so only the id emptiness check remains), then the activation request
and its interpretation. -/
def proceedToActivation (oicUrl : String) (instanceName : Option String)
    (asyncMode : Bool) (act : NetResult ActJson) (id : String)
    (reqs : List Req) : Bool × List Req :=
  if id = "" then (false, reqs)
  else
    (interpretActivationV4 act,
     reqs ++ [Req.activate (activateUrl oicUrl id instanceName asyncMode) id])

/-- `deploy_oic_integration` (deploy_v4.py lines 116-342): returns the
per-archive outcome (`true` = Success) and the list of OIC requests issued.
Mirrors the Python control flow: missing file → False with no request;
POST transport exception → False; `raise_for_status` failure → 409 triggers
the PUT fallback (any other raised status → False); a non-raised 204
derives the id from the filename; otherwise the body is parsed — an
unparsable body is tolerated (id derived from the filename, deployment
assumed successful), JSON status `SUCCESS` takes the body id (falling back
to the filename-derived id when absent or empty), any other status →
False.  A successful import with a non-empty id proceeds to activation. -/
def deploy_oic_integration (oicUrl bearer iarFilePath : String)
    (instanceName : Option String) (asyncMode : Bool) (sc : Scenario) :
    Bool × List Req :=
  let bn := pyBasename iarFilePath
  let impUrl := importPutUrl oicUrl instanceName
  let postReq := Req.importPost impUrl bn iarFilePath
  if sc.fileExists then
    match sc.post with
    | .err _ => (false, [postReq])
    | .ok r =>
      if raisesFor r.code then
        if r.code = 409 then
          let putReq := Req.importPut impUrl bn iarFilePath
          match sc.put with
          | .err _ => (false, [postReq, putReq])
          | .ok p =>
            if raisesFor p.code then (false, [postReq, putReq])
            else if p.code = 200 ∨ p.code = 204 then
              let id := derive_integration_id_from_filename bn
              if id = "" then (false, [postReq, putReq])
              else
                proceedToActivation oicUrl instanceName asyncMode
                  sc.activation id [postReq, putReq]
            else (false, [postReq, putReq])
        else (false, [postReq])
      else if r.code = 204 then
        proceedToActivation oicUrl instanceName asyncMode sc.activation
          (derive_integration_id_from_filename bn) [postReq]
      else
        match r.body with
        | none =>
          proceedToActivation oicUrl instanceName asyncMode sc.activation
            (derive_integration_id_from_filename bn) [postReq]
        | some j =>
          if j.statusField = some "SUCCESS" then
            let bodyId := j.idField.getD ""
            let id :=
              if bodyId = "" then derive_integration_id_from_filename bn
              else bodyId
            proceedToActivation oicUrl instanceName asyncMode sc.activation
              id [postReq]
          else (false, [postReq])
  else (false, [])

/-- The import phase's outcome read off the scenario (the §4.3 state
machine): `none` when import (POST or its PUT-on-409 fallback) fails,
otherwise `some id` with the integration identifier the code determines.
Used to state the activation-iff-import invariant. -/
def importId (sc : Scenario) (bn : String) : Option String :=
  if sc.fileExists then
    match sc.post with
    | .err _ => none
    | .ok r =>
      if raisesFor r.code then
        if r.code = 409 then
          match sc.put with
          | .err _ => none
          | .ok p =>
            if raisesFor p.code then none
            else if p.code = 200 ∨ p.code = 204 then
              some (derive_integration_id_from_filename bn)
            else none
        else none
      else if r.code = 204 then some (derive_integration_id_from_filename bn)
      else
        match r.body with
        | none => some (derive_integration_id_from_filename bn)
        | some j =>
          if j.statusField = some "SUCCESS" then
            some (if j.idField.getD "" = "" then
                    derive_integration_id_from_filename bn
                  else j.idField.getD "")
          else none
    else none

/-- Number of activation requests in a request list. -/
def activateCount (reqs : List Req) : Nat :=
  reqs.countP fun r => match r with | .activate _ _ => true | _ => false

/-- Number of PUT requests in a request list. -/
def putCount (reqs : List Req) : Nat :=
  reqs.countP fun r => match r with | .importPut _ _ _ => true | _ => false

/-! ## Orchestration and summary (deploy_v4.py `__main__`, lines 344-442) -/

/-- Python-dict assignment `m[k] = v` on an insertion-ordered association
list: an existing key keeps its position and gets the new value, a fresh
key is appended. -/
def dictInsert (m : List (String × String)) (k v : String) :
    List (String × String) :=
  if m.any fun p => p.1 = k then
    m.map fun p => if p.1 = k then (k, v) else p
  else m ++ [(k, v)]

/-- Python-dict lookup `m.get(k)`. -/
def dictGet (m : List (String × String)) (k : String) : Option String :=
  (m.find? fun p => p.1 = k).map (·.2)

/-- The per-file deployment loop (deploy_v4.py lines 419-427) over the
basename/outcome pairs: builds `deployment_results` and `overall_success`. -/
def deployLoop (items : List (String × Bool)) :
    List (String × String) × Bool :=
  items.foldl
    (fun acc it =>
      (dictInsert acc.1 it.1 (if it.2 then "SUCCESS" else "FAILED"),
       acc.2 && it.2))
    ([], true)

/-- The final exit code (deploy_v4.py lines 437-442). -/
def finalExit (overallSuccess : Bool) : Nat :=
  if overallSuccess then 0 else 1

/-- The `IAR_FILES` input as the script sees it: either a directory (its
recursive walk abstracted as the list of file paths it yields, each tested
with `file.endswith(".iar")`), or a raw comma-separated string. -/
inductive FilesInput
  | dir (entries : List String)
  | listStr (s : String)
deriving DecidableEq, Repr

/-- The environment variables deploy_v4.py reads (lines 346-362).
`none` models an unset variable. -/
structure CfgV4 where
  oicUrl : Option String
  iarFiles : Option FilesInput
  tokenUrl : Option String
  clientId : Option String
  clientSecret : Option String
  scope : Option String
  instanceName : Option String
  enableAsync : Bool
  fallbackToken : Option String

/-- Python truthiness of an optional environment string (`if not X` is
taken for both an unset and an empty value). -/
def truthy (o : Option String) : Bool :=
  decide (o.getD "" ≠ "")

/-- `f.strip()` with Python's default whitespace set. -/
def pyStrip (s : String) : String :=
  ⟨((s.data.dropWhile Char.isWhitespace).reverse.dropWhile
      Char.isWhitespace).reverse⟩

/-- `s.split(',')`: split a character list at every comma (an empty input
gives one empty part, like Python). -/
def splitCommas : List Char → List (List Char)
  | [] => [[]]
  | c :: rest =>
    if c = ',' then [] :: splitCommas rest
    else
      match splitCommas rest with
      | h :: t => (c :: h) :: t
      | [] => [[c]]

/-- File discovery (deploy_v4.py lines 396-412): a directory is filtered
for `.iar` suffixes; anything else is split on commas, stripped, and
emptied entries dropped. -/
def discoverFiles : FilesInput → List String
  | .dir entries => entries.filter fun f => strEndsWith f ".iar"
  | .listStr s =>
    ((splitCommas s.data).map fun l => pyStrip ⟨l⟩).filter fun f =>
      decide (f ≠ "")

/-- One observable HTTP call of a whole run: a token-endpoint request or an
OIC-endpoint request. -/
inductive Call
  | token
  | oic (r : Req)
deriving DecidableEq, Repr

/-- `__main__` of deploy_v4.py (lines 344-442): configuration validation,
bearer-token acquisition (note: BEFORE file discovery), discovery, the
per-file deployment loop, summary and exit code.  Returns the process exit
code and the full list of HTTP calls issued.  `scs` supplies the network
scenario for each file path. -/
def mainV4 (cfg : CfgV4) (tokSc : NetResult TokJson)
    (scs : String → Scenario) : Nat × List Call :=
  if ¬ truthy cfg.oicUrl then (1, [])
  else if cfg.iarFiles = none then (1, [])
  else
    let credsOk := truthy cfg.tokenUrl && truthy cfg.clientId &&
      truthy cfg.clientSecret && truthy cfg.scope
    if ¬ credsOk ∧ ¬ truthy cfg.fallbackToken then (1, [])
    else
      let fetched := if credsOk then (get_bearer_token tokSc).1 else none
      let tokenCalls : List Call := if credsOk then [Call.token] else []
      let bearer? :=
        match fetched with
        | some t => some t
        | none => if truthy cfg.fallbackToken then cfg.fallbackToken else none
      match bearer? with
      | none => (1, tokenCalls)
      | some bearer =>
        let files := discoverFiles (cfg.iarFiles.getD (.listStr ""))
        if files = [] then (1, tokenCalls)
        else
          let perFile := files.map fun f =>
            let out := deploy_oic_integration (cfg.oicUrl.getD "") bearer f
              cfg.instanceName cfg.enableAsync (scs f)
            ((pyBasename f, out.1), out.2)
          let loop := deployLoop (perFile.map (·.1))
          (finalExit loop.2,
           tokenCalls ++ (perFile.map (·.2)).flatten.map Call.oic)

/-! ## Lemmas about the `.iar`-stripping pass -/

lemma replaceIar_iar (v : List Char) :
    replaceIar ('.' :: 'i' :: 'a' :: 'r' :: v) = replaceIar v := rfl

lemma replaceIar_cons_of_ne (c : Char) (u : List Char)
    (h : ¬ (c = '.' ∧ u.take 3 = ['i', 'a', 'r'])) :
    replaceIar (c :: u) = c :: replaceIar u := by
  rw [replaceIar.eq_def]
  split
  · rename_i heq
    exact absurd (by injection heq with h1 h2; subst h1; simp_all) h
  · rename_i heq
    injection heq with h1 h2
    subst h1; subst h2; rfl
  · rename_i heq
    exact absurd heq (by simp)

lemma containsIar_cons (c : Char) (u : List Char) :
    containsIar (c :: u) =
      ((decide (c = '.') && decide (u.take 3 = ['i', 'a', 'r'])) || containsIar u) := by
  rw [containsIar.eq_def]
  split
  · rename_i heq
    injection heq with h1 h2
    subst h1; subst h2
    simp
  · rename_i hne heq
    injection heq with h1 h2
    subst h1; subst h2
    rcases u with _ | ⟨c1, u1⟩
    · simp
    rcases u1 with _ | ⟨c2, u2⟩
    · simp
    rcases u2 with _ | ⟨c3, u3⟩
    · simp
    by_cases hc : c = '.' ∧ c1 = 'i' ∧ c2 = 'a' ∧ c3 = 'r'
    · exact ((hne u3 hc.1 (by rw [hc.2.1, hc.2.2.1, hc.2.2.2])).elim)
    · have hf : (decide (c = '.') &&
          decide ((c1 :: c2 :: c3 :: u3).take 3 = ['i', 'a', 'r'])) = false := by
        simp only [List.take, Bool.and_eq_false_iff, decide_eq_false_iff_not,
          List.cons.injEq, and_true]
        tauto
      rw [hf, Bool.false_or]
  · rename_i heq
    exact absurd heq (by simp)

/-- The `.iar` occurrence beginning right after `u` (which itself contains
no occurrence) is the one a left-to-right single pass removes first. -/
lemma replaceIar_append (u v : List Char) (hu : containsIar u = false) :
    replaceIar (u ++ '.' :: 'i' :: 'a' :: 'r' :: v) = u ++ replaceIar v := by
  induction u with
  | nil => simpa using replaceIar_iar v
  | cons c u ih =>
    rw [containsIar_cons] at hu
    simp only [Bool.or_eq_false_iff, Bool.and_eq_false_iff,
      decide_eq_false_iff_not] at hu
    obtain ⟨h1, h2⟩ := hu
    have hne : ¬ (c = '.' ∧
        (u ++ '.' :: 'i' :: 'a' :: 'r' :: v).take 3 = ['i', 'a', 'r']) := by
      rintro ⟨e0, e3⟩
      rcases h1 with h1 | h1
      · exact h1 e0
      · rcases u with _ | ⟨c1, u1⟩
        · simp at e3
        rcases u1 with _ | ⟨c2, u2⟩
        · simp at e3
        rcases u2 with _ | ⟨c3, u3⟩
        · simp at e3
        · simp only [List.cons_append, List.take, List.cons.injEq,
            and_true] at e3 h1
          exact h1 ⟨e3.1, e3.2.1, e3.2.2⟩
    rw [List.cons_append, replaceIar_cons_of_ne c _ hne, ih h2]
    simp

/-! ## Claims about identifier derivation -/

/-- C6: for every basename whose extension-stripped form contains a `|`
character, `derive_integration_id_from_filename` returns that stripped form
unchanged, performing no version parsing; in particular a basename with no
interior `.iar` and a `|` in its stem comes back as the stem itself (the
basename minus the trailing extension). -/
theorem claim_C6 :
    (∀ b : List Char, '|' ∈ replaceIar b → deriveIdL b = replaceIar b) ∧
    (∀ t : List Char, containsIar t = false → '|' ∈ t →
      deriveIdL (t ++ ['.', 'i', 'a', 'r']) = t) := by
  have base : ∀ b : List Char, '|' ∈ replaceIar b → deriveIdL b = replaceIar b := by
    intro b hb
    simp only [deriveIdL]
    rw [if_pos hb]
  refine ⟨base, fun t ht hmem => ?_⟩
  have hrw : replaceIar (t ++ ['.', 'i', 'a', 'r']) = t := by
    have := replaceIar_append t [] ht
    simpa [show replaceIar [] = [] from rfl] using this
  have := base (t ++ ['.', 'i', 'a', 'r']) (by rw [hrw]; exact hmem)
  rw [this, hrw]

/-- Closed witness for C6 at the basename `"AB|1.iar"`. -/
theorem claim_C6_witness :
    containsIar "AB|1".data = false ∧ '|' ∈ "AB|1".data ∧
      deriveIdL ("AB|1".data ++ ['.', 'i', 'a', 'r']) = "AB|1".data :=
  ⟨by decide, by decide, claim_C6.2 "AB|1".data (by decide) (by decide)⟩

/-- C7: `derive_integration_id_from_filename` extracts a trailing version of
2-4 numeric groups, strips a leading `v`/`V`, normalizes `_`/`-` separators
to `.`, and trims the trailing separator from the code part:
`"ORDER_SYNC_1_2_3.iar" ↦ "ORDER_SYNC|1.2.3"`,
`"PriceFeed-v2-0-1.iar" ↦ "PriceFeed|2.0.1"`, and
`"NoVersionHere.iar" ↦ "NoVersionHere"` (no version pattern, no `|`). -/
theorem claim_C7 :
    derive_integration_id_from_filename "ORDER_SYNC_1_2_3.iar" = "ORDER_SYNC|1.2.3" ∧
    derive_integration_id_from_filename "PriceFeed-v2-0-1.iar" = "PriceFeed|2.0.1" ∧
    derive_integration_id_from_filename "NoVersionHere.iar" = "NoVersionHere" :=
  ⟨by decide, by decide, by decide⟩

/-- C10: the extension-stripping step of `derive_integration_id_from_filename`
removes every (left-to-right, non-overlapping) occurrence of the substring
`.iar`, not only a trailing extension: around any occurrence following an
occurrence-free prefix `u`, the occurrence's four characters are deleted and
stripping continues in the remainder.  With an empty remainder this gives
the basename minus its final extension; with a non-empty remainder interior
characters are deleted, as the concrete evaluation shows. -/
theorem claim_C10 :
    (∀ u v : List Char, containsIar u = false →
      replaceIar (u ++ '.' :: 'i' :: 'a' :: 'r' :: v) = u ++ replaceIar v) ∧
    derive_integration_id_from_filename "AB.iarCD|1.iar" = "ABCD|1" :=
  ⟨replaceIar_append, by decide⟩

/-- Closed witness for C10: an interior `.iar` occurrence is deleted. -/
theorem claim_C10_witness :
    containsIar "X".data = false ∧
      replaceIar ("X".data ++ '.' :: 'i' :: 'a' :: 'r' :: "Y2".data) =
        "X".data ++ replaceIar "Y2".data :=
  ⟨by decide, claim_C10.1 "X".data "Y2".data (by decide)⟩

/-! ## Claims about the deployment procedure -/

/-- C1: for every archive, an activation request is issued if and only if
the import step (POST, or its PUT-on-409 fallback, with the spec's §4.3
success states including the tolerated unparsable-body import) reported
success and a non-empty integration identifier was determined; in every
other case the recorded outcome is Failed (`false`) and zero activation
requests are issued.  Stated equationally: the outcome equals "import
succeeded with an identifier AND activation succeeded", and the number of
activation requests is 1 in exactly the import-success-with-identifier
case and 0 otherwise. -/
theorem claim_C1 (oicUrl bearer path : String) (inst : Option String)
    (async : Bool) (sc : Scenario) :
    (deploy_oic_integration oicUrl bearer path inst async sc).1 =
      (decide ((importId sc (pyBasename path)).getD "" ≠ "") &&
        interpretActivationV4 sc.activation) ∧
    activateCount (deploy_oic_integration oicUrl bearer path inst async sc).2 =
      (if (importId sc (pyBasename path)).getD "" ≠ "" then 1 else 0) := by
  rcases sc with ⟨fe, post, put, act⟩
  cases fe
  · simp [deploy_oic_integration, importId, activateCount]
  · cases post with
    | err e => simp [deploy_oic_integration, importId, activateCount]
    | ok r =>
      cases put with
      | err e =>
        simp only [deploy_oic_integration, importId, proceedToActivation,
          activateCount]
        repeat' split
        all_goals
          simp_all [List.countP_append, List.countP_cons, List.countP_nil]
      | ok p =>
        simp only [deploy_oic_integration, importId, proceedToActivation,
          activateCount]
        repeat' split
        all_goals
          simp_all [List.countP_append, List.countP_cons, List.countP_nil]

/-- C2: when the import POST of an existing archive returns HTTP 409,
exactly one PUT retry is issued, to the identical URL with the identical
multipart file payload (same file name, same file path) as the POST; every
activation request then issued targets the identifier derived from the
archive's filename (never anything read from the PUT response body — the
last conjunct shows the whole run is independent of that body); a PUT
transport error or a PUT status other than 200/204 yields Failed. -/
theorem claim_C2 (oicUrl bearer path : String) (inst : Option String)
    (async : Bool) (sc : Scenario) (r : HttpResp ImportJson)
    (hfe : sc.fileExists = true) (hpost : sc.post = .ok r)
    (h409 : r.code = 409) :
    putCount (deploy_oic_integration oicUrl bearer path inst async sc).2 = 1 ∧
    Req.importPost (importPutUrl oicUrl inst) (pyBasename path) path ∈
      (deploy_oic_integration oicUrl bearer path inst async sc).2 ∧
    Req.importPut (importPutUrl oicUrl inst) (pyBasename path) path ∈
      (deploy_oic_integration oicUrl bearer path inst async sc).2 ∧
    (∀ url id, Req.activate url id ∈
        (deploy_oic_integration oicUrl bearer path inst async sc).2 →
      id = derive_integration_id_from_filename (pyBasename path)) ∧
    (∀ e, sc.put = .err e →
      (deploy_oic_integration oicUrl bearer path inst async sc).1 = false) ∧
    (∀ p : HttpResp ImportJson, sc.put = .ok p → p.code ≠ 200 → p.code ≠ 204 →
      (deploy_oic_integration oicUrl bearer path inst async sc).1 = false) ∧
    (∀ (p : HttpResp ImportJson) (b : Option ImportJson), sc.put = .ok p →
      deploy_oic_integration oicUrl bearer path inst async
          ⟨sc.fileExists, sc.post, .ok ⟨p.code, b⟩, sc.activation⟩ =
        deploy_oic_integration oicUrl bearer path inst async sc) := by
  rcases sc with ⟨fe, post, put, act⟩
  simp only at hfe hpost
  subst hfe hpost
  have hraise : raisesFor r.code = true := by
    rw [h409]; decide
  cases put with
  | err e =>
    simp only [deploy_oic_integration, proceedToActivation, putCount, hraise,
      if_pos h409, if_true]
    repeat' split
    all_goals
      simp_all [List.countP_append, List.countP_cons, List.countP_nil]
  | ok p =>
    simp only [deploy_oic_integration, proceedToActivation, putCount, hraise,
      if_pos h409, if_true]
    repeat' split
    all_goals
      simp_all [List.countP_append, List.countP_cons, List.countP_nil]
    all_goals tauto

/-- Closed witness for C2 at a concrete 409 scenario whose PUT response
carries a (deliberately different) body identifier, which is ignored. -/
theorem claim_C2_witness :
    putCount (deploy_oic_integration "https://oic.example.com" "tok"
        "ORDER_SYNC_1_2_3.iar" none false
        ⟨true, .ok ⟨409, none⟩, .ok ⟨200, some ⟨some "SUCCESS", some "BODY|9.9"⟩⟩,
          .ok ⟨200, some ⟨some "ACTIVATED"⟩⟩⟩).2 = 1 ∧
    (∀ url id, Req.activate url id ∈
        (deploy_oic_integration "https://oic.example.com" "tok"
          "ORDER_SYNC_1_2_3.iar" none false
          ⟨true, .ok ⟨409, none⟩, .ok ⟨200, some ⟨some "SUCCESS", some "BODY|9.9"⟩⟩,
            .ok ⟨200, some ⟨some "ACTIVATED"⟩⟩⟩).2 →
      id = derive_integration_id_from_filename (pyBasename "ORDER_SYNC_1_2_3.iar")) :=
  ⟨(claim_C2 "https://oic.example.com" "tok" "ORDER_SYNC_1_2_3.iar" none false
      _ _ rfl rfl rfl).1,
   (claim_C2 "https://oic.example.com" "tok" "ORDER_SYNC_1_2_3.iar" none false
      _ _ rfl rfl rfl).2.2.2.1⟩

/-- C3 counterexample: the claim quantifies over every activation response
of the cited code, but in deploy_v2.py an HTTP 200 response whose body is
unparsable as JSON yields Failed, not Success (the `JSONDecodeError`
handler returns False). -/
theorem claim_C3_counterexample :
    interpretActivationV2 (.ok ⟨200, none⟩) = false := by decide

/-- C3 as amended: the claimed interpretation holds of deploy_v4.py
(HTTP 200 with JSON status `ACTIVATED`/`ACTIVATION_INPROGRESS` → Success;
HTTP 200 unparsable → Success; HTTP 200 with any other parsed status,
missing status, any non-200 status, or a transport error → Failed), while
deploy_v2.py yields Success exactly when the status passes
`raise_for_status` and the body parses as JSON with status exactly
`ACTIVATED` — there an unparsable 200 body and `ACTIVATION_INPROGRESS`
both yield Failed. -/
theorem claim_C3 :
    (∀ e, interpretActivationV4 (.err e) = false) ∧
    (∀ (code : Nat) (b : Option ActJson), code ≠ 200 →
      interpretActivationV4 (.ok ⟨code, b⟩) = false) ∧
    interpretActivationV4 (.ok ⟨200, none⟩) = true ∧
    (∀ s, interpretActivationV4 (.ok ⟨200, some ⟨some s⟩⟩) =
      (decide (s = "ACTIVATED") || decide (s = "ACTIVATION_INPROGRESS"))) ∧
    interpretActivationV4 (.ok ⟨200, some ⟨none⟩⟩) = false ∧
    (∀ e, interpretActivationV2 (.err e) = false) ∧
    (∀ code : Nat, interpretActivationV2 (.ok ⟨code, none⟩) = false) ∧
    (∀ (code : Nat) (s : String), interpretActivationV2 (.ok ⟨code, some ⟨some s⟩⟩) =
      (!raisesFor code && decide (s = "ACTIVATED"))) ∧
    (∀ code : Nat, interpretActivationV2 (.ok ⟨code, some ⟨none⟩⟩) = false) := by
  refine ⟨fun e => rfl, fun code b h => ?_, rfl, fun s => ?_, rfl,
    fun e => rfl, fun code => ?_, fun code s => ?_, fun code => ?_⟩
  · simp [interpretActivationV4, h]
  · simp [interpretActivationV4]
  · cases h : raisesFor code <;> simp [interpretActivationV2, h]
  · cases h : raisesFor code <;> simp [interpretActivationV2, h]
  · cases h : raisesFor code <;> simp [interpretActivationV2, h]

/-- Closed witness for C3 (amended) at HTTP 404. -/
theorem claim_C3_witness :
    interpretActivationV4 (.ok ⟨404, none⟩) = false :=
  claim_C3.2.1 404 none (by decide)

/-- C8 counterexample: `get_bearer_token` also returns a token for a
non-200 success status — HTTP 201 with an `access_token` body yields the
token, contradicting "a token if and only if the endpoint responds
HTTP 200". -/
theorem claim_C8_counterexample :
    (get_bearer_token (.ok ⟨201, some ⟨some "tok123"⟩⟩)).1 = some "tok123" ∧
      (201 : Nat) ≠ 200 :=
  ⟨rfl, by decide⟩

/-- The condition under which `get_bearer_token` actually returns a token:
the response status passes `raise_for_status` (is outside 400-599), is not
204, the body parses as JSON, and `access_token` is present and
non-empty. -/
def tokenFetchOk : NetResult TokJson → Bool
  | .err _ => false
  | .ok r =>
    !raisesFor r.code && !decide (r.code = 204) &&
      (match r.body with
       | none => false
       | some j => decide (j.accessToken.getD "" ≠ ""))

/-- C8 as amended: `get_bearer_token` returns a token iff the response
status passes `raise_for_status` (so not only 200 — any status outside
400-599 other than 204 qualifies), the body parses as JSON, and
`access_token` is present and non-empty; every claimed failure mode —
4xx/5xx, 204, transport failure, non-JSON body, missing `access_token` —
returns no token; and exactly one request is attempted per invocation. -/
theorem claim_C8 :
    (∀ sc, ((get_bearer_token sc).1 ≠ none ↔ tokenFetchOk sc = true)) ∧
    (∀ sc, (get_bearer_token sc).2 = 1) ∧
    (∀ e, (get_bearer_token (.err e)).1 = none) ∧
    (∀ (code : Nat) (b : Option TokJson), raisesFor code = true →
      (get_bearer_token (.ok ⟨code, b⟩)).1 = none) ∧
    (∀ b, (get_bearer_token (.ok ⟨204, b⟩)).1 = none) ∧
    (∀ code : Nat, (get_bearer_token (.ok ⟨code, none⟩)).1 = none) ∧
    (∀ code : Nat, (get_bearer_token (.ok ⟨code, some ⟨none⟩⟩)).1 = none) ∧
    (∀ t : String, t ≠ "" →
      (get_bearer_token (.ok ⟨200, some ⟨some t⟩⟩)).1 = some t) := by
  refine ⟨fun sc => ?_, fun sc => ?_, fun e => rfl, fun code b h => ?_,
    fun b => ?_, fun code => ?_, fun code => ?_, fun t h => ?_⟩
  · rcases sc with e | ⟨code, b⟩
    · simp [get_bearer_token, tokenFetchOk]
    · rcases b with _ | ⟨tok⟩
      · simp only [get_bearer_token, tokenFetchOk]
        repeat' split
        all_goals simp_all
      · rcases tok with _ | t
        · simp only [get_bearer_token, tokenFetchOk]
          repeat' split
          all_goals simp_all
        · simp only [get_bearer_token, tokenFetchOk]
          repeat' split
          all_goals simp_all
  · rcases sc with e | r <;> rfl
  · simp [get_bearer_token, h]
  · rcases b with _ | j
    · simp [get_bearer_token, raisesFor]
    · simp [get_bearer_token, raisesFor]
  · simp only [get_bearer_token]
    repeat' split
    all_goals simp_all
  · simp only [get_bearer_token]
    repeat' split
    all_goals simp_all
  · simp [get_bearer_token, raisesFor, h]

/-- Closed witness for C8 (amended): HTTP 500 yields no token, HTTP 200
with an `access_token` yields it. -/
theorem claim_C8_witness :
    (get_bearer_token (.ok ⟨500, some ⟨some "x"⟩⟩)).1 = none ∧
      (get_bearer_token (.ok ⟨200, some ⟨some "x"⟩⟩)).1 = some "x" :=
  ⟨claim_C8.2.2.2.1 500 (some ⟨some "x"⟩) (by decide),
   claim_C8.2.2.2.2.2.2.2 "x" (by decide)⟩

/-- C9 counterexample: deploy_v4.py tolerates a malformed JSON body on an
HTTP 200 import response — the `JSONDecodeError` handler derives the
identifier from the filename, marks the deployment successful and proceeds
to activation — so such an archive's outcome is Success when activation
succeeds, not Failed as claimed. -/
theorem claim_C9_counterexample :
    (deploy_oic_integration "https://oic.example.com" "tok"
        "ORDER_SYNC_1_2_3.iar" none false
        ⟨true, .ok ⟨200, none⟩, .err .connError,
          .ok ⟨200, some ⟨some "ACTIVATED"⟩⟩⟩).1 = true := by decide

/-- C9 as amended: malformed JSON where JSON was expected yields Failed
except in three tolerated cases — HTTP 204 on import (no body expected),
an unparsable body on a non-raising import response (the identifier is
derived from the filename and the archive proceeds to activation, so its
outcome is exactly the activation outcome), and an unparsable body with
HTTP 200 on activation (Success).  In particular an HTTP 200 import
response with an unparsable body does not by itself fail the archive. -/
theorem claim_C9 (oicUrl bearer path : String) (inst : Option String)
    (async : Bool) (putSc : NetResult ImportJson) (act : NetResult ActJson)
    (hid : derive_integration_id_from_filename (pyBasename path) ≠ "") :
    (deploy_oic_integration oicUrl bearer path inst async
        ⟨true, .ok ⟨200, none⟩, putSc, act⟩).1 = interpretActivationV4 act ∧
    Req.activate
        (activateUrl oicUrl
          (derive_integration_id_from_filename (pyBasename path)) inst async)
        (derive_integration_id_from_filename (pyBasename path)) ∈
      (deploy_oic_integration oicUrl bearer path inst async
        ⟨true, .ok ⟨200, none⟩, putSc, act⟩).2 ∧
    interpretActivationV4 (.ok ⟨200, none⟩) = true := by
  refine ⟨?_, ?_, rfl⟩ <;>
    simp [deploy_oic_integration, proceedToActivation, raisesFor, hid]

/-- Closed witness for C9 (amended): a failing activation after a
tolerated unparsable import body. -/
theorem claim_C9_witness :
    (deploy_oic_integration "https://oic.example.com" "tok" "X_1_2.iar" none
        false ⟨true, .ok ⟨200, none⟩, .err .connError, .ok ⟨500, none⟩⟩).1 =
      interpretActivationV4 (.ok ⟨500, none⟩) :=
  (claim_C9 "https://oic.example.com" "tok" "X_1_2.iar" none false
    (.err .connError) (.ok ⟨500, none⟩) (by decide)).1

/-! ## Claims about orchestration and exit codes -/

lemma deployLoop_snd_go (items : List (String × Bool))
    (m : List (String × String)) (b : Bool) :
    (items.foldl
      (fun acc it =>
        (dictInsert acc.1 it.1 (if it.2 then "SUCCESS" else "FAILED"),
         acc.2 && it.2)) (m, b)).2 = (b && items.all (·.2)) := by
  induction items generalizing m b with
  | nil => simp
  | cons it rest ih =>
    simp [List.foldl_cons, ih, Bool.and_assoc]

lemma deployLoop_fst_go (items : List (String × Bool))
    (m : List (String × String)) (b : Bool)
    (hfresh : ∀ k ∈ items.map Prod.fst, (m.any fun p => p.1 = k) = false)
    (hnd : (items.map Prod.fst).Nodup) :
    (items.foldl
      (fun acc it =>
        (dictInsert acc.1 it.1 (if it.2 then "SUCCESS" else "FAILED"),
         acc.2 && it.2)) (m, b)).1 =
      m ++ items.map fun it => (it.1, if it.2 then "SUCCESS" else "FAILED") := by
  induction items generalizing m b with
  | nil => simp
  | cons it rest ih =>
    simp only [List.map_cons, List.nodup_cons] at hnd
    obtain ⟨hhead, htail⟩ := hnd
    have hmfresh : (m.any fun p => p.1 = it.1) = false :=
      hfresh it.1 (by simp)
    have hstep : dictInsert m it.1 (if it.2 then "SUCCESS" else "FAILED") =
        m ++ [(it.1, if it.2 then "SUCCESS" else "FAILED")] := by
      simp [dictInsert, hmfresh]
    simp only [List.foldl_cons]
    rw [hstep, ih (m ++ [(it.1, if it.2 then "SUCCESS" else "FAILED")])
      (b && it.2) ?_ htail]
    · simp
    · intro k hk
      simp only [List.any_append, Bool.or_eq_false_iff]
      refine ⟨hfresh k (by simp [hk]), ?_⟩
      simp only [List.any_cons, List.any_nil, Bool.or_false,
        decide_eq_false_iff_not]
      intro hkk
      exact hhead (hkk ▸ hk)

lemma find_map_entry (items : List (String × Bool))
    (hnd : (items.map Prod.fst).Nodup) (it : String × Bool) (hmem : it ∈ items) :
    ((items.map fun it => (it.1, if it.2 then "SUCCESS" else "FAILED")).find?
        fun p => p.1 = it.1) =
      some (it.1, if it.2 then "SUCCESS" else "FAILED") := by
  induction items with
  | nil => cases hmem
  | cons hd rest ih =>
    simp only [List.map_cons, List.nodup_cons] at hnd
    obtain ⟨hhead, htail⟩ := hnd
    rcases List.mem_cons.mp hmem with h | h
    · subst h
      rw [List.map_cons, List.find?_cons_of_pos _ (by simp)]
    · have hne : hd.1 ≠ it.1 := by
        intro he
        exact hhead (he ▸ (List.mem_map.mpr ⟨it, h, rfl⟩))
      rw [List.map_cons, List.find?_cons_of_neg _ (by simpa using hne)]
      exact ih htail h

/-- C4 counterexample: the summary dict is keyed by basename
(`deployment_results[file_basename] = ...`), so two archives sharing the
basename `X.iar` (reachable via subdirectories in `os.walk` or the comma
list) produce a single summary entry, not one entry per archive, and the
later outcome overwrites the earlier one; the exit code still reflects the
failure. -/
theorem claim_C4_counterexample :
    (deployLoop [("X.iar", true), ("X.iar", false)]).1.length = 1 ∧
    dictGet (deployLoop [("X.iar", true), ("X.iar", false)]).1 "X.iar" =
      some "FAILED" ∧
    finalExit (deployLoop [("X.iar", true), ("X.iar", false)]).2 = 1 := by
  decide

/-- C4 as amended: for every run over the discovered archives, the process
exit code is 0 iff zero archives failed, and overall success is the
conjunction of the per-archive outcomes (both unconditional).  The summary
mapping is keyed by basename, so each archive performs exactly one summary
assignment, but archives sharing a basename collapse to a single entry
holding the last such archive's outcome; when the basenames are pairwise
distinct, each archive contributes exactly one entry to the summary
mapping, recording its own outcome. -/
theorem claim_C4 (items : List (String × Bool)) :
    (finalExit (deployLoop items).2 = 0 ↔
      items.countP (fun it => !it.2) = 0) ∧
    (deployLoop items).2 = items.all (·.2) ∧
    ((items.map Prod.fst).Nodup →
      (deployLoop items).1.length = items.length ∧
      ∀ it ∈ items, dictGet (deployLoop items).1 it.1 =
        some (if it.2 then "SUCCESS" else "FAILED")) := by
  have hsnd : (deployLoop items).2 = items.all (·.2) := by
    simpa using deployLoop_snd_go items [] true
  refine ⟨?_, hsnd, fun hnd => ?_⟩
  · rw [finalExit, hsnd]
    constructor
    · intro h
      rw [List.countP_eq_zero]
      intro it hmem
      by_contra hfail
      have hall : items.all (·.2) = true := by
        by_contra hf
        simp only [hf, Bool.false_eq_true, if_false] at h
        exact one_ne_zero h
      have := (List.all_eq_true.mp hall) it hmem
      simp_all
    · intro h
      have hall : items.all (·.2) = true := by
        rw [List.all_eq_true]
        intro it hmem
        have := (List.countP_eq_zero.mp h) it hmem
        simp_all
      simp [hall]
  · have hfst : (deployLoop items).1 =
        items.map fun it => (it.1, if it.2 then "SUCCESS" else "FAILED") := by
      simpa using deployLoop_fst_go items [] true (by simp) hnd
    refine ⟨by simp [hfst], fun it hmem => ?_⟩
    rw [hfst, dictGet, find_map_entry items hnd it hmem]
    rfl

/-- Closed witness for C4 on a two-archive run with one failure: exit code
1, overall success false, per-archive summary entries correct. -/
theorem claim_C4_witness :
    (finalExit (deployLoop [("a.iar", true), ("b.iar", false)]).2 = 0 ↔
      [("a.iar", true), ("b.iar", false)].countP (fun it => !it.2) = 0) ∧
    (deployLoop [("a.iar", true), ("b.iar", false)]).1.length = 2 :=
  ⟨(claim_C4 [("a.iar", true), ("b.iar", false)]).1,
   ((claim_C4 [("a.iar", true), ("b.iar", false)]).2.2 (by decide)).1⟩

/-- C5 counterexample: in deploy_v4.py the bearer token is fetched BEFORE
file discovery, so a run over a directory with zero `.iar` files still
issues one token-endpoint HTTP call (here with full OAuth credentials
configured): the claim's "issues no HTTP calls at all" fails, although the
exit code is 1. -/
theorem claim_C5_counterexample :
    mainV4
        ⟨some "https://oic.example.com", some (.dir ["readme.txt"]),
          some "https://idcs.example.com/oauth2/v1/token", some "cid",
          some "secret", some "scope", none, false, none⟩
        (.ok ⟨200, some ⟨some "tok"⟩⟩)
        (fun _ => ⟨false, .err .connError, .err .connError, .err .connError⟩) =
      (1, [Call.token]) := by decide

/-- C5 as amended: a run whose file input is a directory containing zero
files with the `.iar` extension terminates with exit code 1 and issues no
OIC-endpoint requests; at most one token-endpoint request (issued before
discovery, when OAuth credentials are configured) can have been made. -/
theorem claim_C5 (cfg : CfgV4) (tokSc : NetResult TokJson)
    (scs : String → Scenario) (entries : List String)
    (hdir : cfg.iarFiles = some (.dir entries))
    (hnone : ∀ f ∈ entries, strEndsWith f ".iar" = false) :
    (mainV4 cfg tokSc scs).1 = 1 ∧
    (∀ c ∈ (mainV4 cfg tokSc scs).2, c = Call.token) ∧
    (mainV4 cfg tokSc scs).2.length ≤ 1 := by
  obtain ⟨ou, fi, tu, ci, cs, sco, inm, ea, fb⟩ := cfg
  simp only at hdir
  subst hdir
  have hfilter : entries.filter (fun f => strEndsWith f ".iar") = [] := by
    rw [List.filter_eq_nil_iff]
    intro f hf
    simp [hnone f hf]
  simp only [mainV4, discoverFiles, Option.getD_some, hfilter]
  repeat' split
  all_goals simp_all

/-- Closed witness for C5 (amended): empty directory, basic fallback-token
configuration — exit code 1 and no HTTP calls at all in this instance. -/
theorem claim_C5_witness :
    (mainV4 ⟨some "https://oic.example.com", some (.dir ["a.txt", "b.car"]),
        none, none, none, none, none, false, some "fallbacktok"⟩
      (.err .timeout)
      (fun _ => ⟨false, .err .connError, .err .connError, .err .connError⟩)).1
        = 1 ∧
    (mainV4 ⟨some "https://oic.example.com", some (.dir ["a.txt", "b.car"]),
        none, none, none, none, none, false, some "fallbacktok"⟩
      (.err .timeout)
      (fun _ => ⟨false, .err .connError, .err .connError, .err .connError⟩)).2.length
        ≤ 1 :=
  ⟨(claim_C5 _ _ _ ["a.txt", "b.car"] rfl (by decide)).1,
   (claim_C5 _ _ _ ["a.txt", "b.car"] rfl (by decide)).2.2⟩

end OicDeploy
